import Mathlib

/-!
Verification of the tabular export/import pipeline of the fibernet dashboard
(source module: src/unnamed/part_001, an export/import utility module plus the
modal component that calls it).

The JavaScript runtime semantics relevant to the pipeline are embedded
shallowly:
  - spreadsheet/CSV cells are `CellValue` (a string, a number, or absent);
  - JS truthiness and the `a || b` operator are `CellValue.truthy` / `jsOrCell`;
  - `parseInt` is `jsParseIntCell`; `String(n)` on an integer-valued number is
    `intToDecimal`; `(x).toFixed(1)` on an integer-valued number is `toFixed1`.
JS numbers are modelled as integers (`Int`/`Nat`): no claim under verification
observes fractional floating-point arithmetic; the one aggregate that divides
(average loss over a non-empty link list) is modelled over `Rat` and is not
evaluated by any claim, which only exercise its empty-list branch.
-/

/-- A parsed spreadsheet/CSV cell as seen by the JavaScript import code: a
string, a number, or an absent key (JS `undefined`). -/
inductive CellValue where
  | str (s : String)
  | num (n : Int)
  | absent
deriving Repr, DecidableEq

/-- JS truthiness of a cell value: empty strings, zero and `undefined` are
falsy. -/
def CellValue.truthy : CellValue → Bool
  | .str s => s != ""
  | .num n => n != 0
  | .absent => false

/-- The JS expression `a || b` on cell values. -/
def jsOrCell (a b : CellValue) : CellValue :=
  if a.truthy then a else b

/-- A parsed row object: association list from column key to cell value. -/
def Row : Type := List (String × CellValue)

/-- Property access `row[key]` on a parsed row object; a missing key is
`undefined`. -/
def getCell : Row → String → CellValue
  | [], _ => .absent
  | (k, v) :: rest, key => if key == k then v else getCell rest key

/-- The JS expression `s || d` for an optional string field `s` with string
default `d` (the empty string is falsy). -/
def jsOrStr (s : Option String) (d : String) : String :=
  match s with
  | some v => if v = "" then d else v
  | none => d

/-- The JS conditional `s ? f(s) : d` for an optional string field `s` (the
empty string is falsy). -/
def jsCondStr (s : Option String) (f : String → String) (d : String) : String :=
  match s with
  | some v => if v = "" then d else f v
  | none => d

/-- The JS expression `n || d` for an optional numeric field rendered into a
cell, with string default `d` (zero is falsy). -/
def jsOrNum (n : Option Int) (d : String) : CellValue :=
  match n with
  | some v => if v = 0 then .str d else .num v
  | none => .str d

/-- Numeric value of a decimal digit character. -/
def charToDigit (c : Char) : Nat := c.toNat - 48

/-- Value of a big-endian list of decimal digit characters. -/
def digitsVal (cs : List Char) : Nat :=
  cs.foldl (fun a c => a * 10 + charToDigit c) 0

/-- Big-endian decimal digit characters of `n`, with `fuel` bounding the
recursion depth (any `fuel ≥ n` is enough); empty for `n = 0`. -/
def decChars (fuel n : Nat) : List Char :=
  match fuel with
  | 0 => []
  | f + 1 => if n = 0 then [] else decChars f (n / 10) ++ [Nat.digitChar (n % 10)]

/-- Big-endian decimal digit characters of `n` (`"0"` for zero). -/
def decimalChars (n : Nat) : List Char :=
  if n = 0 then ['0'] else decChars n n

/-- Decimal string representation of a natural number, as produced by the JS
number-to-string conversion on a non-negative integer-valued number. -/
def natToDecimal (n : Nat) : String := ⟨decimalChars n⟩

/-- Decimal string representation of an integer, as produced by the JS
number-to-string conversion on an integer-valued number. -/
def intToDecimal (i : Int) : String :=
  if i < 0 then "-" ++ natToDecimal i.natAbs else natToDecimal i.toNat

/-- JS `parseInt` on a list of characters: optional leading minus sign, then
the longest digit prefix; `none` is `NaN`. (Leading whitespace and an explicit
plus sign are not modelled; no input under verification contains them.) -/
def jsParseIntChars (cs : List Char) : Option Int :=
  match cs with
  | [] => none
  | c :: rest =>
    if c = '-' then
      let ds := rest.takeWhile Char.isDigit
      if ds = [] then none else some (-(digitsVal ds : Int))
    else
      let ds := (c :: rest).takeWhile Char.isDigit
      if ds = [] then none else some ((digitsVal ds : Int))

/-- JS `parseInt` applied to a cell value (`parseInt(undefined)` is `NaN`,
modelled as `none`; on an integer-valued number it returns that integer). -/
def jsParseIntCell : CellValue → Option Int
  | .str s => jsParseIntChars s.data
  | .num n => some n
  | .absent => none

/-- The JS expression `parseInt(v) || 0` (`NaN` and `0` both collapse to 0). -/
def jsParseIntOrZero (v : CellValue) : Int :=
  (jsParseIntCell v).getD 0

/-- JS `(x).toFixed(1)` on an integer-valued number. -/
def toFixed1 (i : Int) : String := intToDecimal i ++ ".0"

/-- Approximation of JS `(q).toFixed(1)` on a rational: round to one decimal
place. Only reached on the non-empty-links branch of the average-loss
aggregate, which no claim under verification evaluates numerically. -/
def toFixed1Rat (q : Rat) : String :=
  intToDecimal (round (q * 10) / 10) ++ "." ++ natToDecimal ((round (q * 10)).natAbs % 10)

/-- JS `s.substring(0, n) + (s.length > n ? "..." : "")`, the truncation used
by the PDF table renderers. -/
def jsTruncate (n : Nat) (s : String) : String :=
  (s.take n) ++ (if n < s.length then "..." else "")

theorem digitChar_inv : ∀ d, d < 10 →
    (Nat.digitChar d).isDigit = true ∧ charToDigit (Nat.digitChar d) = d := by
  decide

theorem foldl_digitChar (l : List Nat) (hl : ∀ d ∈ l, d < 10) (acc : Nat) :
    List.foldl (fun a c => a * 10 + charToDigit c) acc (l.reverse.map Nat.digitChar)
      = acc * 10 ^ l.length + Nat.ofDigits 10 l := by
  induction l generalizing acc with
  | nil => simp [Nat.ofDigits]
  | cons d t ih =>
    have hd : d < 10 := hl d (List.mem_cons_self _ _)
    have ht : ∀ x ∈ t, x < 10 := fun x hx => hl x (List.mem_cons_of_mem _ hx)
    simp only [List.reverse_cons, List.map_append, List.foldl_append, List.map_cons,
      List.map_nil, List.foldl_cons, List.foldl_nil]
    rw [ih ht, (digitChar_inv d hd).2, Nat.ofDigits_cons, List.length_cons]
    ring

theorem decChars_eq (fuel : Nat) : ∀ n : Nat, n ≤ fuel →
    decChars fuel n = (Nat.digits 10 n).reverse.map Nat.digitChar := by
  induction fuel with
  | zero =>
    intro n hn
    interval_cases n
    simp [decChars]
  | succ f ih =>
    intro n hn
    by_cases h0 : n = 0
    · subst h0; simp [decChars]
    · have hpos : 0 < n := Nat.pos_of_ne_zero h0
      have hdiv : n / 10 ≤ f := by
        have := Nat.div_lt_self hpos (by norm_num : 1 < 10)
        omega
      simp only [decChars, if_neg h0]
      rw [ih (n / 10) hdiv, Nat.digits_def' (by norm_num : 1 < 10) hpos]
      simp

theorem decimalChars_eq (n : Nat) :
    decimalChars n = if n = 0 then ['0'] else (Nat.digits 10 n).reverse.map Nat.digitChar := by
  by_cases h : n = 0
  · simp [decimalChars, h]
  · simp [decimalChars, h, decChars_eq n n le_rfl]

theorem decimalChars_isDigit (n : Nat) : ∀ c ∈ decimalChars n, c.isDigit = true := by
  rw [decimalChars_eq]
  by_cases h : n = 0
  · subst h
    intro c hc
    simp only [if_true, List.mem_singleton] at hc
    subst hc
    decide
  · simp only [if_neg h]
    intro c hc
    obtain ⟨d, hd, rfl⟩ := List.mem_map.mp hc
    have hd10 : d < 10 :=
      Nat.digits_lt_base (by norm_num) (List.mem_reverse.mp hd)
    exact (digitChar_inv d hd10).1

theorem decimalChars_ne_nil (n : Nat) : decimalChars n ≠ [] := by
  rw [decimalChars_eq]
  by_cases h : n = 0
  · simp [h]
  · simp only [if_neg h, ne_eq, List.map_eq_nil_iff, List.reverse_eq_nil_iff]
    exact Nat.digits_ne_nil_iff_ne_zero.mpr h

theorem digitsVal_decimalChars (n : Nat) : digitsVal (decimalChars n) = n := by
  rw [decimalChars_eq]
  by_cases h : n = 0
  · simp [h, digitsVal, charToDigit]
  · simp only [if_neg h, digitsVal]
    rw [foldl_digitChar (Nat.digits 10 n)
      (fun d hd => Nat.digits_lt_base (by norm_num) hd) 0]
    simp [Nat.ofDigits_digits]

theorem jsParseIntChars_decimalChars (n : Nat) :
    jsParseIntChars (decimalChars n) = some (n : Int) := by
  have hd := decimalChars_isDigit n
  have hne := decimalChars_ne_nil n
  cases hcs : decimalChars n with
  | nil => exact absurd hcs hne
  | cons c rest =>
    have hc : c.isDigit = true := hd c (hcs ▸ List.mem_cons_self _ _)
    have hcm : ¬(c = '-') := by
      intro e
      rw [e] at hc
      simp [Char.isDigit] at hc
    have htake : (c :: rest).takeWhile Char.isDigit = c :: rest :=
      List.takeWhile_eq_self_iff.mpr (by intro x hx; exact hd x (hcs ▸ hx))
    simp only [jsParseIntChars, if_neg hcm, htake]
    rw [if_neg (by simp)]
    rw [← hcs, digitsVal_decimalChars]

theorem natToDecimal_ne_empty (n : Nat) : natToDecimal n ≠ "" := by
  intro h
  exact decimalChars_ne_nil n (congrArg String.data h)

theorem intToDecimal_natCast (n : Nat) : intToDecimal (n : Int) = natToDecimal n := by
  simp [intToDecimal]

theorem jsParseIntCell_natToDecimal (n : Nat) :
    jsParseIntCell (.str (natToDecimal n)) = some (n : Int) := by
  simp only [jsParseIntCell, natToDecimal]
  exact jsParseIntChars_decimalChars n

theorem truthy_str_of_ne {s : String} (h : s ≠ "") : (CellValue.str s).truthy = true := by
  simp [CellValue.truthy, h]

theorem jsOrCell_pos {a : CellValue} (b : CellValue) (h : a.truthy = true) :
    jsOrCell a b = a := by
  simp [jsOrCell, h]

theorem jsOrCell_neg {a : CellValue} (b : CellValue) (h : a.truthy = false) :
    jsOrCell a b = b := by
  simp [jsOrCell, h]

theorem natToDecimal_example : natToDecimal 1234 = "1234" := rfl

theorem intToDecimal_example : intToDecimal (-207) = "-207" := rfl

/-!
Data model. The record types live in src/types, which is not among the
sources; every field and its type below is reconstructed from its uses in the
export/import module (src/unnamed/part_001). The nested location object of a
route (route.location.start / route.location.end) is flattened into two
fields; arrays whose only observed property is their length (ticket
activities and photos, asset photos and maintenanceHistory) are modelled by
that length.
-/

/-- A link sub-record of a route, with its length and total loss (JS numbers,
modelled as integers). -/
structure Link where
  length : Int
  totalLoss : Int
deriving Repr, DecidableEq

/-- Per-kind asset counts nested in a route. -/
structure RouteAssets where
  handhole : Nat
  odc : Nat
  pole : Nat
  jc : Nat
deriving Repr, DecidableEq

/-- A fiber route record as consumed by the export functions. -/
structure Route where
  id : String
  name : String
  status : String
  locationStart : String
  locationEnd : String
  fiberCount : Nat
  links : List Link
  troubleTickets : Nat
  assets : RouteAssets
  lastMaintenance : String
  nextMaintenance : String
deriving Repr, DecidableEq

/-- A material usage entry nested in a trouble ticket. -/
structure MaterialUsage where
  materialType : String
  materialName : String
  quantity : Int
  unit : String
  supplier : Option String
  partNumber : Option String
  usedDate : String
  location : Option String
  coordinates : Option (Int × Int)
  notes : Option String
deriving Repr, DecidableEq

/-- A trouble ticket record as consumed by the export functions. The
activities and photos arrays are observed only through their length and are
modelled by it; coordinates are integer-valued numbers. -/
structure TroubleTicket where
  ticketNumber : String
  routeId : String
  linkId : Option String
  title : String
  description : String
  priority : String
  status : String
  category : String
  reportedBy : String
  assignedTo : Option String
  personHandling : Option String
  impact : String
  repairType : String
  coresSpliced : Int
  rootCause : String
  trafficImpacted : String
  locationAddress : String
  locationLandmark : Option String
  problemLatitude : Int
  problemLongitude : Int
  createdAt : String
  updatedAt : String
  resolvedAt : Option String
  closedAt : Option String
  totalDuration : Option Nat
  slaTarget : Option Int
  slaStatus : Option String
  activities : Nat
  materialUsage : List MaterialUsage
  photos : Nat
deriving Repr, DecidableEq

/-- The nested location object of a network asset. -/
structure AssetLocation where
  address : String
  landmark : Option String
  longitude : Int
  latitude : Int
  elevation : Option Int
deriving Repr, DecidableEq

/-- The nested specifications object of a network asset. -/
structure AssetSpecifications where
  manufacturer : Option String
  model : Option String
  serialNumber : Option String
  capacity : Option String
  material : Option String
  ipRating : Option String
deriving Repr, DecidableEq

/-- A network asset record as consumed by the export functions. The
completeness checklist is a mapping of named boolean checks, modelled as an
association list. -/
structure NetworkAsset where
  assetNumber : String
  name : String
  type : String
  routeId : String
  linkId : Option String
  condition : String
  status : String
  location : AssetLocation
  installationDate : String
  lastInspection : Option String
  nextInspection : Option String
  specifications : AssetSpecifications
  completeness : List (String × Bool)
  photos : Nat
  maintenanceHistory : Nat
  createdAt : String
  createdBy : String
  updatedAt : String
  lastModifiedBy : String
  notes : Option String
deriving Repr, DecidableEq

/-- A maintenance record as consumed by the export functions. -/
structure MaintenanceRecord where
  id : String
  routeId : String
  type : String
  status : String
  title : String
  description : String
  priority : String
  scheduledDate : String
  completedDate : Option String
  technician : String
  duration : Option Int
  notes : Option String
deriving Repr, DecidableEq

/-- Export configuration, mirroring the ExportOptions interface of the
module (all three fields are optional in the source; includeTimestamp is used
only as a condition, so it is modelled as a Bool). -/
structure ExportOptions where
  filename : Option String
  title : Option String
  includeTimestamp : Bool
deriving Repr, DecidableEq

/-- The getRouteName helper shared by the per-kind exports with a route
foreign key: look the route id up in the companion routes collection and fall
back to the literal string Unknown Route. -/
def getRouteName (routes : List Route) (routeId : String) : String :=
  match routes.find? (fun r => r.id == routeId) with
  | some r => r.name
  | none => "Unknown Route"

/-- The route lookup of the bulk export (exportAllData): the JS expression
routes.find(...)?.name || "Unknown" — note the different placeholder, and
that a found route with an empty name also falls back. -/
def bulkRouteName (routes : List Route) (routeId : String) : String :=
  match routes.find? (fun r => r.id == routeId) with
  | some r => if r.name = "" then "Unknown" else r.name
  | none => "Unknown"

/-- Sum of the link lengths of a route, as computed by the reduce call of the
route exports. -/
def sumLinkLengths (links : List Link) : Int :=
  links.foldl (fun s l => s + l.length) 0

/-- The Average Loss display value of the route exports: the mean of the link
total losses rendered with toFixed(1) when links are present, the literal
string 0 otherwise. -/
def avgLossStr (links : List Link) : String :=
  if 0 < links.length then
    toFixed1Rat ((links.foldl (fun s l => s + (l.totalLoss : Rat)) 0) / (links.length : Rat))
  else "0"

/-- The per-route row projection of exportRoutesToXLSX and exportRoutesToCSV,
which is also (character for character in the source) the Routes sheet
projection of exportAllData. -/
def routeExportRow (r : Route) : Row :=
  [("Route ID", .str r.id),
   ("Route Name", .str r.name),
   ("Status", .str r.status),
   ("Start Location", .str r.locationStart),
   ("End Location", .str r.locationEnd),
   ("Fiber Count", .num (r.fiberCount : Int)),
   ("Total Links", .num (r.links.length : Int)),
   ("Total Length (km)", .str (toFixed1 (sumLinkLengths r.links))),
   ("Average Loss (dB)", .str (avgLossStr r.links)),
   ("Trouble Tickets", .num (r.troubleTickets : Int)),
   ("Handhole Count", .num (r.assets.handhole : Int)),
   ("ODC Count", .num (r.assets.odc : Int)),
   ("Pole Count", .num (r.assets.pole : Int)),
   ("JC Count", .num (r.assets.jc : Int)),
   ("Last Maintenance", .str r.lastMaintenance),
   ("Next Maintenance", .str r.nextMaintenance)]

/-- The per-route table row of exportRoutesToPDF. -/
def exportRoutesToPDFRow (r : Route) : List String :=
  [r.name, r.status, r.locationStart ++ " → " ++ r.locationEnd,
   natToDecimal r.fiberCount, natToDecimal r.links.length,
   toFixed1 (sumLinkLengths r.links), avgLossStr r.links,
   natToDecimal r.troubleTickets]

/-- The formatDuration helper of exportTroubleTicketsToXLSX: absent or zero
minutes (both falsy in JS) render as N/A; otherwise hours and minutes. -/
def formatDuration : Option Nat → String
  | none => "N/A"
  | some minutes =>
    if minutes = 0 then "N/A"
    else if 0 < minutes / 60 then
      natToDecimal (minutes / 60) ++ "h " ++ natToDecimal (minutes % 60) ++ "m"
    else natToDecimal (minutes % 60) ++ "m"

/-- The per-ticket row of the Trouble Tickets sheet of
exportTroubleTicketsToXLSX. The parameter fmt abstracts the JS date rendering
new Date(x).toLocaleString(). -/
def troubleTicketRow (fmt : String → String) (routes : List Route) (t : TroubleTicket) : Row :=
  [("Ticket Number", .str t.ticketNumber),
   ("Route", .str (getRouteName routes t.routeId)),
   ("Link ID", .str (jsOrStr t.linkId "N/A")),
   ("Title", .str t.title),
   ("Description", .str t.description),
   ("Priority", .str t.priority),
   ("Status", .str t.status),
   ("Category", .str t.category),
   ("Reported By", .str t.reportedBy),
   ("Assigned To", .str (jsOrStr t.assignedTo "Unassigned")),
   ("Person Handling", .str (jsOrStr t.personHandling "N/A")),
   ("Impact", .str t.impact),
   ("Repair Type", .str t.repairType),
   ("Cores Spliced", .num t.coresSpliced),
   ("Root Cause", .str t.rootCause),
   ("Traffic Impacted", .str t.trafficImpacted),
   ("Location", .str t.locationAddress),
   ("Landmark", .str (jsOrStr t.locationLandmark "N/A")),
   ("Coordinates", .str (intToDecimal t.problemLatitude ++ ", " ++ intToDecimal t.problemLongitude)),
   ("Created At", .str (fmt t.createdAt)),
   ("Updated At", .str (fmt t.updatedAt)),
   ("Resolved At", .str (jsCondStr t.resolvedAt fmt "N/A")),
   ("Closed At", .str (jsCondStr t.closedAt fmt "N/A")),
   ("Total Duration", .str (formatDuration t.totalDuration)),
   ("SLA Target (hours)", jsOrNum t.slaTarget "N/A"),
   ("SLA Status", .str (jsOrStr t.slaStatus "N/A")),
   ("Activities Count", .num (t.activities : Int)),
   ("Materials Count", .num (t.materialUsage.length : Int)),
   ("Photos Count", .num (t.photos : Int))]

/-- A row of the Material Usage sheet of exportTroubleTicketsToXLSX, carrying
the parent ticket number and resolved route name. -/
def materialUsageRow (routes : List Route) (t : TroubleTicket) (m : MaterialUsage) : Row :=
  [("Ticket Number", .str t.ticketNumber),
   ("Route", .str (getRouteName routes t.routeId)),
   ("Material Type", .str m.materialType),
   ("Material Name", .str m.materialName),
   ("Quantity", .num m.quantity),
   ("Unit", .str m.unit),
   ("Supplier", .str (jsOrStr m.supplier "N/A")),
   ("Part Number", .str (jsOrStr m.partNumber "N/A")),
   ("Used Date", .str m.usedDate),
   ("Location", .str (jsOrStr m.location "N/A")),
   ("Coordinates", .str (match m.coordinates with
     | some (la, lo) => intToDecimal la ++ ", " ++ intToDecimal lo
     | none => "N/A")),
   ("Notes", .str (jsOrStr m.notes "N/A"))]

/-- The flattened material rows of all tickets (the materialsData array of
exportTroubleTicketsToXLSX). -/
def ticketsMaterialsData (routes : List Route) (tickets : List TroubleTicket) : List Row :=
  tickets.flatMap (fun t => t.materialUsage.map (materialUsageRow routes t))

/-- The sheets of the workbook produced by exportTroubleTicketsToXLSX: the
Trouble Tickets sheet always, the Material Usage sheet only when the
flattened material rows are non-empty. -/
def exportTroubleTicketsToXLSXSheets (fmt : String → String) (routes : List Route)
    (tickets : List TroubleTicket) : List (String × List Row) :=
  [("Trouble Tickets", tickets.map (troubleTicketRow fmt routes))]
    ++ (if 0 < (ticketsMaterialsData routes tickets).length then
          [("Material Usage", ticketsMaterialsData routes tickets)]
        else [])

/-- Sheet names of the workbook produced by exportTroubleTicketsToXLSX. -/
def exportTroubleTicketsToXLSXSheetNames (fmt : String → String) (routes : List Route)
    (tickets : List TroubleTicket) : List String :=
  (exportTroubleTicketsToXLSXSheets fmt routes tickets).map Prod.fst

/-- The per-ticket table row of exportTroubleTicketsToPDF; fmtDate abstracts
new Date(x).toLocaleDateString(). -/
def exportTroubleTicketsToPDFRow (fmtDate : String → String) (routes : List Route)
    (t : TroubleTicket) : List String :=
  [t.ticketNumber, getRouteName routes t.routeId, jsTruncate 30 t.title,
   t.priority, t.status, t.impact, fmtDate t.createdAt]

/-- The calculateCompleteness helper of exportAssetsToXLSX: percentage of
true entries, rounded (Math.round on the exact ratio). An empty checklist
yields NaN in JS; it is modelled as 0 and not exercised by any claim. -/
def calculateCompleteness (c : List (String × Bool)) : Nat :=
  if c.length = 0 then 0
  else ((c.filter (fun kv => kv.2)).length * 200 + c.length) / (2 * c.length)

/-- The per-asset row of exportAssetsToXLSX; fmt abstracts
new Date(x).toLocaleString(). -/
def networkAssetRow (fmt : String → String) (routes : List Route) (a : NetworkAsset) : Row :=
  [("Asset Number", .str a.assetNumber),
   ("Asset Name", .str a.name),
   ("Type", .str a.type),
   ("Route", .str (getRouteName routes a.routeId)),
   ("Link ID", .str (jsOrStr a.linkId "N/A")),
   ("Condition", .str a.condition),
   ("Status", .str a.status),
   ("Address", .str a.location.address),
   ("Landmark", .str (jsOrStr a.location.landmark "N/A")),
   ("Longitude", .num a.location.longitude),
   ("Latitude", .num a.location.latitude),
   ("Elevation (m)", jsOrNum a.location.elevation "N/A"),
   ("Installation Date", .str a.installationDate),
   ("Last Inspection", .str (jsOrStr a.lastInspection "N/A")),
   ("Next Inspection", .str (jsOrStr a.nextInspection "N/A")),
   ("Manufacturer", .str (jsOrStr a.specifications.manufacturer "N/A")),
   ("Model", .str (jsOrStr a.specifications.model "N/A")),
   ("Serial Number", .str (jsOrStr a.specifications.serialNumber "N/A")),
   ("Capacity", .str (jsOrStr a.specifications.capacity "N/A")),
   ("Material", .str (jsOrStr a.specifications.material "N/A")),
   ("IP Rating", .str (jsOrStr a.specifications.ipRating "N/A")),
   ("Completeness (%)", .num (calculateCompleteness a.completeness : Int)),
   ("Photos Count", .num (a.photos : Int)),
   ("Maintenance Records", .num (a.maintenanceHistory : Int)),
   ("Created At", .str (fmt a.createdAt)),
   ("Created By", .str a.createdBy),
   ("Last Modified", .str (fmt a.updatedAt)),
   ("Last Modified By", .str a.lastModifiedBy),
   ("Notes", .str (jsOrStr a.notes "N/A"))]

/-- The per-asset table row of exportAssetsToPDF; fmtDate abstracts
new Date(x).toLocaleDateString(). -/
def exportAssetsToPDFRow (fmtDate : String → String) (routes : List Route)
    (a : NetworkAsset) : List String :=
  [a.assetNumber, jsTruncate 20 a.name, a.type, getRouteName routes a.routeId,
   a.condition, a.status, fmtDate a.installationDate]

/-- The per-record row of exportMaintenanceToXLSX. -/
def maintenanceRow (routes : List Route) (rec : MaintenanceRecord) : Row :=
  [("Record ID", .str rec.id),
   ("Route", .str (getRouteName routes rec.routeId)),
   ("Type", .str rec.type),
   ("Status", .str rec.status),
   ("Title", .str rec.title),
   ("Description", .str rec.description),
   ("Priority", .str rec.priority),
   ("Scheduled Date", .str rec.scheduledDate),
   ("Completed Date", .str (jsOrStr rec.completedDate "N/A")),
   ("Technician", .str rec.technician),
   ("Duration (hours)", jsOrNum rec.duration "N/A"),
   ("Notes", .str (jsOrStr rec.notes "N/A"))]

/-- The per-record table row of exportMaintenanceToPDF. -/
def exportMaintenanceToPDFRow (routes : List Route) (rec : MaintenanceRecord) : List String :=
  [getRouteName routes rec.routeId, jsTruncate 25 rec.title, rec.type,
   rec.status, rec.priority, rec.technician, rec.scheduledDate]

/-- A row of the lighter Assets sheet of the bulk export (exportAllData,
workbook branch); note the bulkRouteName lookup with its Unknown fallback. -/
def bulkAssetsSheetRow (routes : List Route) (a : NetworkAsset) : Row :=
  [("Asset Number", .str a.assetNumber),
   ("Asset Name", .str a.name),
   ("Type", .str a.type),
   ("Route", .str (bulkRouteName routes a.routeId)),
   ("Condition", .str a.condition),
   ("Status", .str a.status),
   ("Location", .str a.location.address),
   ("Installation Date", .str a.installationDate),
   ("Last Inspection", .str (jsOrStr a.lastInspection "N/A")),
   ("Next Inspection", .str (jsOrStr a.nextInspection "N/A"))]

/-- A row of the lighter Trouble Tickets sheet of the bulk export; fmt
abstracts new Date(x).toLocaleString(). -/
def bulkTicketsSheetRow (fmt : String → String) (routes : List Route)
    (t : TroubleTicket) : Row :=
  [("Ticket Number", .str t.ticketNumber),
   ("Route", .str (bulkRouteName routes t.routeId)),
   ("Title", .str t.title),
   ("Priority", .str t.priority),
   ("Status", .str t.status),
   ("Category", .str t.category),
   ("Impact", .str t.impact),
   ("Repair Type", .str t.repairType),
   ("Created At", .str (fmt t.createdAt)),
   ("Resolved At", .str (jsCondStr t.resolvedAt fmt "N/A"))]

/-- A row of the lighter Maintenance sheet of the bulk export. -/
def bulkMaintenanceSheetRow (routes : List Route) (rec : MaintenanceRecord) : Row :=
  [("Route", .str (bulkRouteName routes rec.routeId)),
   ("Type", .str rec.type),
   ("Status", .str rec.status),
   ("Title", .str rec.title),
   ("Priority", .str rec.priority),
   ("Scheduled Date", .str rec.scheduledDate),
   ("Completed Date", .str (jsOrStr rec.completedDate "N/A")),
   ("Technician", .str rec.technician),
   ("Duration (hours)", jsOrNum rec.duration "N/A")]

/-- The sheets of the workbook produced by the bulk export (exportAllData,
workbook branch), in source order: the Routes sheet is appended
unconditionally, the Assets, Trouble Tickets and Maintenance sheets only when
their input collection is non-empty. -/
def exportAllDataXLSXSheets (fmt : String → String) (routes : List Route)
    (tickets : List TroubleTicket) (assets : List NetworkAsset)
    (maintenance : List MaintenanceRecord) : List (String × List Row) :=
  [("Routes", routes.map routeExportRow)]
    ++ (if 0 < assets.length then [("Assets", assets.map (bulkAssetsSheetRow routes))] else [])
    ++ (if 0 < tickets.length then
          [("Trouble Tickets", tickets.map (bulkTicketsSheetRow fmt routes))]
        else [])
    ++ (if 0 < maintenance.length then
          [("Maintenance", maintenance.map (bulkMaintenanceSheetRow routes))]
        else [])

/-- Sheet names of the bulk workbook export. -/
def exportAllDataXLSXSheetNames (fmt : String → String) (routes : List Route)
    (tickets : List TroubleTicket) (assets : List NetworkAsset)
    (maintenance : List MaintenanceRecord) : List String :=
  (exportAllDataXLSXSheets fmt routes tickets assets maintenance).map Prod.fst

/-- A summary table of the bulk PDF export: the source renders only a routes
table and a tickets table (there is no assets or maintenance table in the PDF
branch of exportAllData). -/
inductive BulkReportSection where
  | routesTable (rows : List (List String))
  | ticketsTable (rows : List (List String))
deriving Repr, DecidableEq

/-- A row of the Routes Summary table of the bulk PDF export. -/
def bulkPDFRouteRow (r : Route) : List String :=
  [r.name, r.status, natToDecimal r.fiberCount, natToDecimal r.links.length,
   natToDecimal r.troubleTickets]

/-- A row of the Recent Trouble Tickets table of the bulk PDF export; fmtDate
abstracts new Date(x).toLocaleDateString(). -/
def bulkPDFTicketRow (fmtDate : String → String) (routes : List Route)
    (t : TroubleTicket) : List String :=
  [t.ticketNumber, bulkRouteName routes t.routeId, t.priority, t.status,
   fmtDate t.createdAt]

/-- The summary tables of the bulk PDF export (exportAllData, PDF branch), in
source order. Each table is truncated to the first 10 records by slice(0, 10).
The assets and maintenance collections are accepted but never rendered as
tables in this branch (they appear only in the counts line). -/
def exportAllDataPDFSections (fmtDate : String → String) (routes : List Route)
    (tickets : List TroubleTicket) (assets : List NetworkAsset)
    (maintenance : List MaintenanceRecord) : List BulkReportSection :=
  (if 0 < routes.length then
    [BulkReportSection.routesTable ((routes.take 10).map bulkPDFRouteRow)]
  else [])
    ++ (if 0 < tickets.length then
          [BulkReportSection.ticketsTable ((tickets.take 10).map (bulkPDFTicketRow fmtDate routes))]
        else [])

/-- The filename timestamp suffix: an underscore and the ISO date when
includeTimestamp is set, empty otherwise. -/
def timestampSuffix (includeTimestamp : Bool) (isoDate : String) : String :=
  if includeTimestamp then "_" ++ isoDate else ""

/-- Output file name of exportRoutesToXLSX. -/
def exportRoutesToXLSXFileName (o : ExportOptions) (isoDate : String) : String :=
  jsOrStr o.filename "routes_export" ++ timestampSuffix o.includeTimestamp isoDate ++ ".xlsx"

/-- Output file name of exportRoutesToCSV. -/
def exportRoutesToCSVFileName (o : ExportOptions) (isoDate : String) : String :=
  jsOrStr o.filename "routes_export" ++ timestampSuffix o.includeTimestamp isoDate ++ ".csv"

/-- Output file name of exportRoutesToPDF. -/
def exportRoutesToPDFFileName (o : ExportOptions) (isoDate : String) : String :=
  jsOrStr o.filename "routes_export" ++ timestampSuffix o.includeTimestamp isoDate ++ ".pdf"

/-- Output file name of exportTroubleTicketsToXLSX. -/
def exportTroubleTicketsToXLSXFileName (o : ExportOptions) (isoDate : String) : String :=
  jsOrStr o.filename "trouble_tickets_export" ++ timestampSuffix o.includeTimestamp isoDate ++ ".xlsx"

/-- Output file name of exportTroubleTicketsToPDF. -/
def exportTroubleTicketsToPDFFileName (o : ExportOptions) (isoDate : String) : String :=
  jsOrStr o.filename "trouble_tickets_export" ++ timestampSuffix o.includeTimestamp isoDate ++ ".pdf"

/-- Output file name of exportAssetsToXLSX. -/
def exportAssetsToXLSXFileName (o : ExportOptions) (isoDate : String) : String :=
  jsOrStr o.filename "network_assets_export" ++ timestampSuffix o.includeTimestamp isoDate ++ ".xlsx"

/-- Output file name of exportAssetsToPDF. -/
def exportAssetsToPDFFileName (o : ExportOptions) (isoDate : String) : String :=
  jsOrStr o.filename "network_assets_export" ++ timestampSuffix o.includeTimestamp isoDate ++ ".pdf"

/-- Output file name of exportMaintenanceToXLSX. -/
def exportMaintenanceToXLSXFileName (o : ExportOptions) (isoDate : String) : String :=
  jsOrStr o.filename "maintenance_records_export" ++ timestampSuffix o.includeTimestamp isoDate ++ ".xlsx"

/-- Output file name of exportMaintenanceToPDF. -/
def exportMaintenanceToPDFFileName (o : ExportOptions) (isoDate : String) : String :=
  jsOrStr o.filename "maintenance_records_export" ++ timestampSuffix o.includeTimestamp isoDate ++ ".pdf"

/-- Output file name of the bulk export (exportAllData): the function takes
no options, uses a fixed base name and always appends the ISO date. -/
def exportAllDataFileName (ext : String) (isoDate : String) : String :=
  "fibernet_complete_export_" ++ isoDate ++ "." ++ ext

/-!
Import decoder. importRoutesFromXLSX and importRoutesFromCSV share the same
per-row field mapping, reproduced here as importRow; today is the value of
new Date().toISOString().split("T")[0] at import time. The CSV importer
filters out rows whose resolved name is falsy; the XLSX importer resolves the
mapped rows directly without any filter (source lines 829-849 versus
865-885). The CSV text layer (Papa.unparse followed by Papa.parse with
header: true) stringifies every cell, modelled by csvRow; the XLSX sheet
layer (json_to_sheet followed by sheet_to_json) preserves cell types and is
the identity on rows.
-/

/-- A partially-populated route produced by the import decoder. The name,
status, location and maintenance-date fields carry whatever cell value the
row resolution produced (possibly absent for name); the numeric fields go
through parseInt with a zero fallback; links is always set to the empty
list. -/
structure ImportedRoute where
  name : CellValue
  status : CellValue
  fiberCount : Int
  locationStart : CellValue
  locationEnd : CellValue
  lastMaintenance : CellValue
  nextMaintenance : CellValue
  troubleTickets : Int
  handhole : Int
  odc : Int
  pole : Int
  jc : Int
  links : List Link
deriving Repr, DecidableEq

/-- The shared per-row mapping of importRoutesFromXLSX and
importRoutesFromCSV: probe the human-readable column label, then the
lowercase/camel fallback key, then a typed default. -/
def importRow (today : String) (row : Row) : ImportedRoute :=
  { name := jsOrCell (getCell row "Route Name") (getCell row "name")
    status := jsOrCell (jsOrCell (getCell row "Status") (getCell row "status"))
      (.str "operational")
    fiberCount := jsParseIntOrZero
      (jsOrCell (getCell row "Fiber Count") (getCell row "fiberCount"))
    locationStart := jsOrCell (jsOrCell (getCell row "Start Location") (getCell row "start"))
      (.str "")
    locationEnd := jsOrCell (jsOrCell (getCell row "End Location") (getCell row "end"))
      (.str "")
    lastMaintenance := jsOrCell
      (jsOrCell (getCell row "Last Maintenance") (getCell row "lastMaintenance"))
      (.str today)
    nextMaintenance := jsOrCell
      (jsOrCell (getCell row "Next Maintenance") (getCell row "nextMaintenance"))
      (.str today)
    troubleTickets := jsParseIntOrZero
      (jsOrCell (getCell row "Trouble Tickets") (getCell row "troubleTickets"))
    handhole := jsParseIntOrZero
      (jsOrCell (getCell row "Handhole Count") (getCell row "handhole"))
    odc := jsParseIntOrZero (jsOrCell (getCell row "ODC Count") (getCell row "odc"))
    pole := jsParseIntOrZero (jsOrCell (getCell row "Pole Count") (getCell row "pole"))
    jc := jsParseIntOrZero (jsOrCell (getCell row "JC Count") (getCell row "jc"))
    links := [] }

/-- importRoutesFromXLSX on already-parsed sheet rows: the mapped records are
resolved as they are, with no blank-row filtering. -/
def importRoutesFromXLSXRows (today : String) (rows : List Row) : List ImportedRoute :=
  rows.map (importRow today)

/-- importRoutesFromCSV on already-parsed rows: mapped records whose resolved
name is falsy (absent or empty) are filtered out. -/
def importRoutesFromCSVRows (today : String) (rows : List Row) : List ImportedRoute :=
  (rows.map (importRow today)).filter (fun rec => rec.name.truthy)

/-- Rendering of a cell into CSV text by Papa.unparse: strings verbatim,
numbers in decimal, absent values as an empty field. Papa.parse with
header: true then reads every field back as a string. -/
def csvCellStr : CellValue → String
  | .str s => s
  | .num i => intToDecimal i
  | .absent => ""

/-- Round trip of a row object through CSV text (Papa.unparse then
Papa.parse): every cell comes back as its string rendering. -/
def csvRow (row : Row) : Row :=
  row.map (fun kv => (kv.1, CellValue.str (csvCellStr kv.2)))

/-- Import error taxonomy of the modal that drives the pipeline. -/
inductive ImportError where
  | emptyImport
  | unsupportedFileType
  | unsupportedImportKind
deriving Repr, DecidableEq

/-- The empty-result check performed by the import handler of the modal
(source lines 175-177): an empty imported collection is turned into an
EmptyImport failure instead of being returned. -/
def importResultCheck (l : List ImportedRoute) : Except ImportError (List ImportedRoute) :=
  if l.isEmpty then .error .emptyImport else .ok l

/-!
Concrete sample records used by witnesses and counterexamples.
-/

/-- A sample route with no links (numeric fields kept at zero where a witness
must evaluate the projection). -/
def sampleRoute : Route :=
  { id := "R1", name := "Alpha", status := "operational", locationStart := "NodeA",
    locationEnd := "NodeB", fiberCount := 0, links := [], troubleTickets := 0,
    assets := ⟨0, 0, 0, 0⟩, lastMaintenance := "2025-01-01",
    nextMaintenance := "2025-06-01" }

/-- A sample route whose name is the empty string. -/
def emptyNameRoute : Route :=
  { id := "R0", name := "", status := "operational", locationStart := "A",
    locationEnd := "B", fiberCount := 0, links := [], troubleTickets := 0,
    assets := ⟨0, 0, 0, 0⟩, lastMaintenance := "", nextMaintenance := "" }

/-- A sample trouble ticket whose route id matches no route, with a total
duration of 90 minutes and no materials. -/
def sampleTicket : TroubleTicket :=
  { ticketNumber := "TT-001", routeId := "R-404", linkId := none, title := "Fiber cut",
    description := "cut near bridge", priority := "high", status := "open",
    category := "cut", reportedBy := "ops", assignedTo := none, personHandling := none,
    impact := "major", repairType := "splice", coresSpliced := 0, rootCause := "dig",
    trafficImpacted := "yes", locationAddress := "addr", locationLandmark := none,
    problemLatitude := 0, problemLongitude := 0, createdAt := "2026-01-01",
    updatedAt := "2026-01-02", resolvedAt := none, closedAt := none,
    totalDuration := some 90, slaTarget := none, slaStatus := none, activities := 0,
    materialUsage := [], photos := 0 }

/-- A sample material usage entry. -/
def sampleMaterial : MaterialUsage :=
  { materialType := "cable", materialName := "SM-24", quantity := 0, unit := "m",
    supplier := none, partNumber := none, usedDate := "2026-01-01", location := none,
    coordinates := none, notes := none }

/-- A sample network asset whose route id matches no route. -/
def sampleAsset : NetworkAsset :=
  { assetNumber := "AS-001", name := "Handhole 1", type := "handhole",
    routeId := "R-404", linkId := none, condition := "good", status := "active",
    location := { address := "addr", landmark := none, longitude := 0, latitude := 0,
                  elevation := none },
    installationDate := "2024-01-01", lastInspection := none, nextInspection := none,
    specifications := { manufacturer := none, model := none, serialNumber := none,
                        capacity := none, material := none, ipRating := none },
    completeness := [], photos := 0, maintenanceHistory := 0,
    createdAt := "2024-01-01", createdBy := "ops", updatedAt := "2024-01-02",
    lastModifiedBy := "ops", notes := none }

/-- A sample maintenance record whose route id matches no route. -/
def sampleMaintenance : MaintenanceRecord :=
  { id := "M-001", routeId := "R-404", type := "preventive", status := "scheduled",
    title := "Cleaning", description := "d", priority := "low",
    scheduledDate := "2026-03-01", completedDate := none, technician := "tech",
    duration := none, notes := none }

/-- C3: for every route with an empty links collection, the route export
projection renders Average Loss (dB) as the literal string 0 and Total Length
(km) as the literal string 0.0, in the XLSX/CSV row projection and in the PDF
table row (columns 6 and 5); in particular neither is NaN nor empty. -/
theorem empty_links_zero_aggregates (r : Route) (h : r.links = []) :
    getCell (routeExportRow r) "Average Loss (dB)" = .str "0"
    ∧ getCell (routeExportRow r) "Total Length (km)" = .str "0.0"
    ∧ (exportRoutesToPDFRow r).get? 6 = some "0"
    ∧ (exportRoutesToPDFRow r).get? 5 = some "0.0" := by
  refine ⟨?_, ?_, ?_, ?_⟩ <;>
    simp [routeExportRow, exportRoutesToPDFRow, getCell, h, avgLossStr, sumLinkLengths,
      toFixed1, intToDecimal, natToDecimal, decimalChars]

theorem empty_links_zero_aggregates_witness :
    sampleRoute.links = []
    ∧ (getCell (routeExportRow sampleRoute) "Average Loss (dB)" = .str "0"
       ∧ getCell (routeExportRow sampleRoute) "Total Length (km)" = .str "0.0"
       ∧ (exportRoutesToPDFRow sampleRoute).get? 6 = some "0"
       ∧ (exportRoutesToPDFRow sampleRoute).get? 5 = some "0.0") :=
  ⟨rfl, empty_links_zero_aggregates sampleRoute rfl⟩

/-- C9 counterexample: a ticket whose total duration is present as the number
0 renders as N/A, not as 0m as the claim requires (the JS guard
!minutes treats 0 like an absent duration). -/
theorem duration_zero_renders_na :
    formatDuration (some 0) = "N/A"
    ∧ "N/A" ≠ "0m"
    ∧ getCell (troubleTicketRow id [] { sampleTicket with totalDuration := some 0 })
        "Total Duration" = .str "N/A" := by
  refine ⟨rfl, by decide, rfl⟩

/-- C9 (amended): for every ticket whose total duration is present as a
positive number of minutes m, the ticket export renders Total Duration as
h-hours-and-minutes when m is at least 60 and as minutes otherwise, with
h = m / 60 and minute part m % 60; a duration of 0 (or an absent one)
renders as N/A instead. -/
theorem ticket_duration_rendering (fmt : String → String) (routes : List Route)
    (t : TroubleTicket) (m : Nat) (hm : t.totalDuration = some m) (hpos : 0 < m) :
    getCell (troubleTicketRow fmt routes t) "Total Duration"
      = .str (if 60 ≤ m then
                natToDecimal (m / 60) ++ "h " ++ natToDecimal (m % 60) ++ "m"
              else natToDecimal m ++ "m") := by
  have hcell : getCell (troubleTicketRow fmt routes t) "Total Duration"
      = .str (formatDuration t.totalDuration) := rfl
  rw [hcell, hm]
  have hne : ¬(m = 0) := by omega
  rcases Nat.lt_or_ge m 60 with hlt | hge
  · have hdiv : m / 60 = 0 := Nat.div_eq_of_lt hlt
    have hmod : m % 60 = m := Nat.mod_eq_of_lt hlt
    rw [if_neg (by omega)]
    simp [formatDuration, hne, hdiv, hmod]
  · have hdiv : 0 < m / 60 := Nat.div_pos hge (by norm_num)
    rw [if_pos hge]
    simp [formatDuration, hne, hdiv]

theorem ticket_duration_rendering_witness :
    getCell (troubleTicketRow id [] sampleTicket) "Total Duration"
      = .str (if 60 ≤ 90 then
                natToDecimal (90 / 60) ++ "h " ++ natToDecimal (90 % 60) ++ "m"
              else natToDecimal 90 ++ "m") :=
  ticket_duration_rendering id [] sampleTicket 90 rfl (by decide)

/-- C6 counterexample: the bulk export takes no options at all and always
appends the ISO date to its fixed base name, so its file name carries the
date suffix even though no includeTimestamp option was (or can be) set. -/
theorem bulk_filename_always_timestamped :
    exportAllDataFileName "xlsx" "2026-01-01" = "fibernet_complete_export_2026-01-01.xlsx"
    ∧ exportAllDataFileName "xlsx" "2026-01-01" ≠ "fibernet_complete_export.xlsx" := by
  refine ⟨rfl, by decide⟩

/-- C6 (amended): every per-kind export names its output file as the chosen
or default base name followed by the extension, with the ISO-date suffix
appended exactly when includeTimestamp is true; the bulk export instead uses
the fixed base fibernet_complete_export and always appends the ISO date. -/
theorem export_file_naming (o : ExportOptions) (iso : String) :
    (o.includeTimestamp = true →
      exportRoutesToXLSXFileName o iso
        = jsOrStr o.filename "routes_export" ++ "_" ++ iso ++ ".xlsx"
      ∧ exportRoutesToCSVFileName o iso
        = jsOrStr o.filename "routes_export" ++ "_" ++ iso ++ ".csv"
      ∧ exportRoutesToPDFFileName o iso
        = jsOrStr o.filename "routes_export" ++ "_" ++ iso ++ ".pdf"
      ∧ exportTroubleTicketsToXLSXFileName o iso
        = jsOrStr o.filename "trouble_tickets_export" ++ "_" ++ iso ++ ".xlsx"
      ∧ exportTroubleTicketsToPDFFileName o iso
        = jsOrStr o.filename "trouble_tickets_export" ++ "_" ++ iso ++ ".pdf"
      ∧ exportAssetsToXLSXFileName o iso
        = jsOrStr o.filename "network_assets_export" ++ "_" ++ iso ++ ".xlsx"
      ∧ exportAssetsToPDFFileName o iso
        = jsOrStr o.filename "network_assets_export" ++ "_" ++ iso ++ ".pdf"
      ∧ exportMaintenanceToXLSXFileName o iso
        = jsOrStr o.filename "maintenance_records_export" ++ "_" ++ iso ++ ".xlsx"
      ∧ exportMaintenanceToPDFFileName o iso
        = jsOrStr o.filename "maintenance_records_export" ++ "_" ++ iso ++ ".pdf")
    ∧ (o.includeTimestamp = false →
      exportRoutesToXLSXFileName o iso = jsOrStr o.filename "routes_export" ++ ".xlsx"
      ∧ exportRoutesToCSVFileName o iso = jsOrStr o.filename "routes_export" ++ ".csv"
      ∧ exportRoutesToPDFFileName o iso = jsOrStr o.filename "routes_export" ++ ".pdf"
      ∧ exportTroubleTicketsToXLSXFileName o iso
        = jsOrStr o.filename "trouble_tickets_export" ++ ".xlsx"
      ∧ exportTroubleTicketsToPDFFileName o iso
        = jsOrStr o.filename "trouble_tickets_export" ++ ".pdf"
      ∧ exportAssetsToXLSXFileName o iso = jsOrStr o.filename "network_assets_export" ++ ".xlsx"
      ∧ exportAssetsToPDFFileName o iso = jsOrStr o.filename "network_assets_export" ++ ".pdf"
      ∧ exportMaintenanceToXLSXFileName o iso
        = jsOrStr o.filename "maintenance_records_export" ++ ".xlsx"
      ∧ exportMaintenanceToPDFFileName o iso
        = jsOrStr o.filename "maintenance_records_export" ++ ".pdf")
    ∧ exportAllDataFileName "xlsx" iso = "fibernet_complete_export_" ++ iso ++ ".xlsx"
    ∧ exportAllDataFileName "pdf" iso = "fibernet_complete_export_" ++ iso ++ ".pdf" := by
  refine ⟨fun h => ?_, fun h => ?_,
    by simp [exportAllDataFileName, String.append_assoc],
    by simp [exportAllDataFileName, String.append_assoc]⟩ <;>
    simp [exportRoutesToXLSXFileName, exportRoutesToCSVFileName, exportRoutesToPDFFileName,
      exportTroubleTicketsToXLSXFileName, exportTroubleTicketsToPDFFileName,
      exportAssetsToXLSXFileName, exportAssetsToPDFFileName,
      exportMaintenanceToXLSXFileName, exportMaintenanceToPDFFileName,
      timestampSuffix, h, String.append_assoc]

theorem export_file_naming_witness :
    exportRoutesToXLSXFileName ⟨none, none, true⟩ "2026-01-01"
      = jsOrStr none "routes_export" ++ "_" ++ "2026-01-01" ++ ".xlsx" :=
  ((export_file_naming ⟨none, none, true⟩ "2026-01-01").1 rfl).1

/-- C2 counterexample: in the bulk export the failed route lookup renders the
literal Unknown, not Unknown Route, in the Route column of its Trouble
Tickets sheet. -/
theorem bulk_export_unknown_placeholder :
    getCell (bulkTicketsSheetRow id [] sampleTicket) "Route" = .str "Unknown"
    ∧ CellValue.str "Unknown" ≠ CellValue.str "Unknown Route" := by
  refine ⟨rfl, by decide⟩

/-- C2 (amended): in every per-kind export that resolves a route foreign key
(tickets, assets, maintenance, XLSX and PDF, and the material-usage sheet), a
record whose route id matches no route in the companion collection renders
its Route value as the literal Unknown Route; the projections are total, so
the export completes. The bulk export instead renders Unknown. -/
theorem per_kind_unknown_route_placeholder (fmt : String → String) (routes : List Route)
    (t : TroubleTicket) (a : NetworkAsset) (rec : MaintenanceRecord)
    (ht : ∀ r ∈ routes, r.id ≠ t.routeId)
    (ha : ∀ r ∈ routes, r.id ≠ a.routeId)
    (hm : ∀ r ∈ routes, r.id ≠ rec.routeId) :
    getCell (troubleTicketRow fmt routes t) "Route" = .str "Unknown Route"
    ∧ (exportTroubleTicketsToPDFRow fmt routes t).get? 1 = some "Unknown Route"
    ∧ getCell (networkAssetRow fmt routes a) "Route" = .str "Unknown Route"
    ∧ (exportAssetsToPDFRow fmt routes a).get? 3 = some "Unknown Route"
    ∧ getCell (maintenanceRow routes rec) "Route" = .str "Unknown Route"
    ∧ (exportMaintenanceToPDFRow routes rec).get? 0 = some "Unknown Route"
    ∧ (∀ m : MaterialUsage,
        getCell (materialUsageRow routes t m) "Route" = .str "Unknown Route") := by
  have key : ∀ routeId, (∀ r ∈ routes, r.id ≠ routeId) →
      getRouteName routes routeId = "Unknown Route" := by
    intro routeId hnone
    unfold getRouteName
    have hfind : routes.find? (fun r => r.id == routeId) = none := by
      apply List.find?_eq_none.mpr
      intro r hr
      simp [hnone r hr]
    rw [hfind]
  refine ⟨?_, ?_, ?_, ?_, ?_, ?_, fun m => ?_⟩
  · show getCell (troubleTicketRow fmt routes t) "Route" = .str "Unknown Route"
    have e : getCell (troubleTicketRow fmt routes t) "Route"
        = .str (getRouteName routes t.routeId) := rfl
    rw [e, key _ ht]
  · have e : (exportTroubleTicketsToPDFRow fmt routes t).get? 1
        = some (getRouteName routes t.routeId) := rfl
    rw [e, key _ ht]
  · have e : getCell (networkAssetRow fmt routes a) "Route"
        = .str (getRouteName routes a.routeId) := rfl
    rw [e, key _ ha]
  · have e : (exportAssetsToPDFRow fmt routes a).get? 3
        = some (getRouteName routes a.routeId) := rfl
    rw [e, key _ ha]
  · have e : getCell (maintenanceRow routes rec) "Route"
        = .str (getRouteName routes rec.routeId) := rfl
    rw [e, key _ hm]
  · have e : (exportMaintenanceToPDFRow routes rec).get? 0
        = some (getRouteName routes rec.routeId) := rfl
    rw [e, key _ hm]
  · have e : getCell (materialUsageRow routes t m) "Route"
        = .str (getRouteName routes t.routeId) := rfl
    rw [e, key _ ht]

theorem per_kind_unknown_route_placeholder_witness :
    getCell (troubleTicketRow id [] sampleTicket) "Route" = .str "Unknown Route" :=
  (per_kind_unknown_route_placeholder id [] sampleTicket sampleAsset sampleMaintenance
    (by simp) (by simp) (by simp)).1

/-- C7 counterexample: the bulk workbook export appends the Routes sheet
unconditionally, so an all-empty input still produces a workbook with a
Routes sheet, although the routes collection is empty. -/
theorem bulk_workbook_routes_sheet_unconditional :
    exportAllDataXLSXSheetNames id [] [] [] [] = ["Routes"]
    ∧ "Routes" ∈ exportAllDataXLSXSheetNames id [] [] [] [] := by
  refine ⟨rfl, by decide⟩

/-- C7 (amended): in the bulk workbook export the Assets, Trouble Tickets and
Maintenance sheets are present exactly when their input collection is
non-empty, while the Routes sheet is always present, even when the routes
collection is empty. -/
theorem bulk_workbook_sheet_presence (fmt : String → String) (routes : List Route)
    (tickets : List TroubleTicket) (assets : List NetworkAsset)
    (maintenance : List MaintenanceRecord) :
    "Routes" ∈ exportAllDataXLSXSheetNames fmt routes tickets assets maintenance
    ∧ ("Assets" ∈ exportAllDataXLSXSheetNames fmt routes tickets assets maintenance
        ↔ assets ≠ [])
    ∧ ("Trouble Tickets" ∈ exportAllDataXLSXSheetNames fmt routes tickets assets maintenance
        ↔ tickets ≠ [])
    ∧ ("Maintenance" ∈ exportAllDataXLSXSheetNames fmt routes tickets assets maintenance
        ↔ maintenance ≠ []) := by
  cases assets <;> cases tickets <;> cases maintenance <;>
    simp [exportAllDataXLSXSheetNames, exportAllDataXLSXSheets]

theorem bulk_workbook_sheet_presence_witness :
    "Routes" ∈ exportAllDataXLSXSheetNames id [] [sampleTicket] [] [sampleMaintenance]
    ∧ ("Assets" ∈ exportAllDataXLSXSheetNames id [] [sampleTicket] [] [sampleMaintenance]
        ↔ ([] : List NetworkAsset) ≠ [])
    ∧ ("Trouble Tickets"
          ∈ exportAllDataXLSXSheetNames id [] [sampleTicket] [] [sampleMaintenance]
        ↔ [sampleTicket] ≠ [])
    ∧ ("Maintenance" ∈ exportAllDataXLSXSheetNames id [] [sampleTicket] [] [sampleMaintenance]
        ↔ [sampleMaintenance] ≠ []) :=
  bulk_workbook_sheet_presence id [] [sampleTicket] [] [sampleMaintenance]

/-- C8 counterexample: with all four kinds non-empty the bulk PDF export
produces exactly two summary tables (routes and tickets); there is no assets
table and no maintenance table, so it does not contain one table per record
kind. -/
theorem bulk_pdf_only_two_tables :
    (exportAllDataPDFSections id [sampleRoute] [sampleTicket] [sampleAsset]
        [sampleMaintenance]).length = 2
    ∧ (2 : Nat) ≠ 4
    ∧ exportAllDataPDFSections id [sampleRoute] [sampleTicket] [sampleAsset]
        [sampleMaintenance]
      = [BulkReportSection.routesTable [bulkPDFRouteRow sampleRoute],
         BulkReportSection.ticketsTable [bulkPDFTicketRow id [sampleRoute] sampleTicket]] := by
  refine ⟨rfl, by decide, rfl⟩

/-- C8 (amended): the bulk PDF export contains only a routes summary table
and a tickets summary table; a routes table is in the document exactly when
the routes collection is non-empty (and then it is the table of the first 10
routes), a tickets table exactly when the tickets collection is non-empty
(and then it is the table of the first 10 tickets); every section is one of
these two truncated tables and there are at most two of them. The assets and
maintenance kinds get no table. -/
theorem bulk_pdf_summary_tables (fmtDate : String → String) (routes : List Route)
    (tickets : List TroubleTicket) (assets : List NetworkAsset)
    (maintenance : List MaintenanceRecord) :
    (∀ rows, BulkReportSection.routesTable rows
        ∈ exportAllDataPDFSections fmtDate routes tickets assets maintenance
      ↔ routes ≠ [] ∧ rows = (routes.take 10).map bulkPDFRouteRow)
    ∧ (∀ rows, BulkReportSection.ticketsTable rows
        ∈ exportAllDataPDFSections fmtDate routes tickets assets maintenance
      ↔ tickets ≠ [] ∧ rows = (tickets.take 10).map (bulkPDFTicketRow fmtDate routes))
    ∧ (∀ s ∈ exportAllDataPDFSections fmtDate routes tickets assets maintenance,
        (∃ rows, s = BulkReportSection.routesTable rows ∧ rows.length ≤ 10)
        ∨ (∃ rows, s = BulkReportSection.ticketsTable rows ∧ rows.length ≤ 10))
    ∧ (exportAllDataPDFSections fmtDate routes tickets assets maintenance).length ≤ 2 := by
  rcases routes with _ | ⟨r, rs⟩ <;> rcases tickets with _ | ⟨t, ts⟩ <;>
    simp [exportAllDataPDFSections, List.length_take, Nat.min_le_left]

theorem bulk_pdf_summary_tables_witness :
    (BulkReportSection.routesTable (([sampleRoute].take 10).map bulkPDFRouteRow)
      ∈ exportAllDataPDFSections id [sampleRoute] [] [] [])
    ∧ ¬(BulkReportSection.ticketsTable []
      ∈ exportAllDataPDFSections id [sampleRoute] [] [] []) :=
  ⟨((bulk_pdf_summary_tables id [sampleRoute] [] [] []).1 _).mpr ⟨by simp, rfl⟩,
   fun h =>
     absurd (((bulk_pdf_summary_tables id [sampleRoute] [] [] []).2.1 []).mp h).1
       (by simp)⟩

/-- Helper: the flattened material rows are empty exactly when every ticket
has an empty material usage collection. -/
theorem ticketsMaterialsData_eq_nil_iff (routes : List Route)
    (tickets : List TroubleTicket) :
    ticketsMaterialsData routes tickets = [] ↔ ∀ t ∈ tickets, t.materialUsage = [] := by
  induction tickets with
  | nil => simp [ticketsMaterialsData]
  | cons t ts ih =>
    simp only [ticketsMaterialsData, List.flatMap_cons, List.append_eq_nil,
      List.map_eq_nil_iff, List.mem_cons] at *
    constructor
    · rintro ⟨h1, h2⟩
      intro x hx
      rcases hx with rfl | hx
      · exact h1
      · exact ih.mp h2 x hx
    · intro h
      exact ⟨h t (Or.inl rfl), ih.mpr fun x hx => h x (Or.inr hx)⟩

/-- C10: the workbook of the ticket export contains the Material Usage sheet
exactly when at least one ticket has a non-empty material usage collection;
when every material usage collection is empty the workbook has only the
Trouble Tickets sheet. -/
theorem material_usage_sheet_iff (fmt : String → String) (routes : List Route)
    (tickets : List TroubleTicket) :
    ("Material Usage" ∈ exportTroubleTicketsToXLSXSheetNames fmt routes tickets
      ↔ ∃ t ∈ tickets, t.materialUsage ≠ [])
    ∧ ((∀ t ∈ tickets, t.materialUsage = []) →
        exportTroubleTicketsToXLSXSheetNames fmt routes tickets = ["Trouble Tickets"]) := by
  have hiff : 0 < (ticketsMaterialsData routes tickets).length
      ↔ ∃ t ∈ tickets, t.materialUsage ≠ [] := by
    rw [List.length_pos, Ne, ticketsMaterialsData_eq_nil_iff]
    push_neg
    rfl
  constructor
  · by_cases hmd : 0 < (ticketsMaterialsData routes tickets).length
    · have hx := hiff.mp hmd
      simp [exportTroubleTicketsToXLSXSheetNames, exportTroubleTicketsToXLSXSheets, hmd, hx]
    · have hx : ¬∃ t ∈ tickets, t.materialUsage ≠ [] := fun hc => hmd (hiff.mpr hc)
      simp [exportTroubleTicketsToXLSXSheetNames, exportTroubleTicketsToXLSXSheets, hmd, hx]
  · intro hall
    have hmd : ¬(0 < (ticketsMaterialsData routes tickets).length) := by
      rw [List.length_pos, Ne]
      intro hc
      exact hc ((ticketsMaterialsData_eq_nil_iff routes tickets).mpr hall)
    simp [exportTroubleTicketsToXLSXSheetNames, exportTroubleTicketsToXLSXSheets, hmd]

theorem material_usage_sheet_iff_witness :
    exportTroubleTicketsToXLSXSheetNames id [] [sampleTicket] = ["Trouble Tickets"] :=
  (material_usage_sheet_iff id [] [sampleTicket]).2 (by
    intro t ht
    simp only [List.mem_singleton] at ht
    subst ht
    rfl)

/-- C4 counterexample: the workbook importer does not drop blank-named rows.
A one-row sheet whose only populated column is Status comes back as one
record whose name is absent (falsy), instead of being dropped. -/
theorem xlsx_import_keeps_blank_named_rows :
    importRoutesFromXLSXRows "2026-01-01" [[("Status", CellValue.str "critical")]]
      = [{ name := .absent, status := .str "critical", fiberCount := 0,
           locationStart := .str "", locationEnd := .str "",
           lastMaintenance := .str "2026-01-01", nextMaintenance := .str "2026-01-01",
           troubleTickets := 0, handhole := 0, odc := 0, pole := 0, jc := 0,
           links := [] }]
    ∧ CellValue.absent.truthy = false := by
  refine ⟨rfl, rfl⟩

/-- C4 (amended): the delimited-text importer drops every row whose resolved
name is falsy (so an all-blank file maps to the empty list, which the import
handler of the modal then turns into an EmptyImport failure); the workbook
importer performs no such filtering and returns one record per parsed row. -/
theorem import_blank_row_handling (today : String) (rows : List Row) :
    (∀ rec ∈ importRoutesFromCSVRows today rows, rec.name.truthy = true)
    ∧ ((∀ row ∈ rows, (importRow today row).name.truthy = false) →
        importRoutesFromCSVRows today rows = [])
    ∧ (importRoutesFromCSVRows today rows = [] →
        importResultCheck (importRoutesFromCSVRows today rows) = .error .emptyImport)
    ∧ (importRoutesFromXLSXRows today rows).length = rows.length := by
  refine ⟨?_, ?_, ?_, ?_⟩
  · intro rec hrec
    exact (List.mem_filter.mp hrec).2
  · intro hall
    unfold importRoutesFromCSVRows
    rw [List.filter_eq_nil_iff]
    intro rec hrec
    obtain ⟨row, hrow, rfl⟩ := List.mem_map.mp hrec
    simp [hall row hrow]
  · intro h
    rw [h]
    rfl
  · simp [importRoutesFromXLSXRows]

theorem import_blank_row_handling_witness :
    importRoutesFromCSVRows "2026-01-01" [[("Status", CellValue.str "critical")]] = [] :=
  (import_blank_row_handling "2026-01-01" [[("Status", CellValue.str "critical")]]).2.1
    (by decide)

theorem jsOrCell_chain_pos (a b c : CellValue) (h : a.truthy = true) :
    jsOrCell (jsOrCell a b) c = a := by
  rw [jsOrCell_pos _ h, jsOrCell_pos _ h]

theorem jsOrCell_chain_mid (a b c : CellValue) (h1 : a.truthy = false)
    (h2 : b.truthy = true) : jsOrCell (jsOrCell a b) c = b := by
  rw [jsOrCell_neg _ h1, jsOrCell_pos _ h2]

theorem jsOrCell_chain_def (a b c : CellValue) (h1 : a.truthy = false)
    (h2 : b.truthy = false) : jsOrCell (jsOrCell a b) c = c := by
  rw [jsOrCell_neg _ h1, jsOrCell_neg _ h2]

theorem jsParseIntOrZero_falsy (v : CellValue) (h : v.truthy = false) :
    jsParseIntOrZero v = 0 := by
  cases v with
  | str s =>
    have hs : s = "" := by simpa [CellValue.truthy, bne_eq_false_iff_eq] using h
    subst hs
    rfl
  | num n =>
    have hn : n = 0 := by simpa [CellValue.truthy, bne_eq_false_iff_eq] using h
    subst hn
    rfl
  | absent => rfl

theorem parse_chain_pos (a b : CellValue) (h : a.truthy = true) :
    jsParseIntOrZero (jsOrCell a b) = jsParseIntOrZero a := by
  rw [jsOrCell_pos _ h]

theorem parse_chain_mid (a b : CellValue) (h1 : a.truthy = false) :
    jsParseIntOrZero (jsOrCell a b) = jsParseIntOrZero b := by
  rw [jsOrCell_neg _ h1]

theorem parse_chain_def (a b : CellValue) (h1 : a.truthy = false)
    (h2 : b.truthy = false) : jsParseIntOrZero (jsOrCell a b) = 0 := by
  rw [jsOrCell_neg _ h1]
  exact jsParseIntOrZero_falsy _ h2

/-- C5 counterexample: a row in which the human-readable Status label is
present with the empty-string value does not contribute that value: the JS
|| chain treats the falsy cell as absent and the importer substitutes the
typed default operational instead, contradicting the claim that the value
under the label is taken whenever it is present. -/
theorem import_present_blank_label_not_taken :
    getCell [("Status", CellValue.str "")] "Status" = CellValue.str ""
    ∧ (importRow "2026-01-01" [("Status", CellValue.str "")]).status
        = CellValue.str "operational"
    ∧ CellValue.str "operational" ≠ CellValue.str "" := by
  refine ⟨rfl, rfl, by decide⟩

/-- C5 (amended): for every parsed row and every target route field, the
importer takes the value under the human-readable column label when it is
present with a truthy value (non-empty string, non-zero number), otherwise
the value under the lowercase/camel fallback key when that is truthy,
otherwise a typed default: status operational, the numeric counts 0 (the
winning cell, when any, goes through parseInt with a 0 fallback), the
maintenance dates today in ISO form, the locations the empty string, and the
links collection always empty (name has no default and stays absent). A
label that is present with a falsy value, such as an empty cell, is skipped
like an absent one. The 2-row delimited scenario yields exactly one record
named Segment A with status operational, the blank-named second row being
dropped. -/
theorem import_field_resolution (today : String) (row : Row) :
    ((getCell row "Route Name").truthy = true →
      (importRow today row).name = getCell row "Route Name")
    ∧ ((getCell row "Route Name").truthy = false →
      (importRow today row).name = getCell row "name")
    ∧ ((getCell row "Status").truthy = true →
      (importRow today row).status = getCell row "Status")
    ∧ ((getCell row "Status").truthy = false → (getCell row "status").truthy = true →
      (importRow today row).status = getCell row "status")
    ∧ ((getCell row "Status").truthy = false → (getCell row "status").truthy = false →
      (importRow today row).status = .str "operational")
    ∧ ((getCell row "Start Location").truthy = true →
      (importRow today row).locationStart = getCell row "Start Location")
    ∧ ((getCell row "Start Location").truthy = false →
       (getCell row "start").truthy = true →
      (importRow today row).locationStart = getCell row "start")
    ∧ ((getCell row "Start Location").truthy = false →
       (getCell row "start").truthy = false →
      (importRow today row).locationStart = .str "")
    ∧ ((getCell row "End Location").truthy = true →
      (importRow today row).locationEnd = getCell row "End Location")
    ∧ ((getCell row "End Location").truthy = false → (getCell row "end").truthy = true →
      (importRow today row).locationEnd = getCell row "end")
    ∧ ((getCell row "End Location").truthy = false → (getCell row "end").truthy = false →
      (importRow today row).locationEnd = .str "")
    ∧ ((getCell row "Last Maintenance").truthy = true →
      (importRow today row).lastMaintenance = getCell row "Last Maintenance")
    ∧ ((getCell row "Last Maintenance").truthy = false →
       (getCell row "lastMaintenance").truthy = true →
      (importRow today row).lastMaintenance = getCell row "lastMaintenance")
    ∧ ((getCell row "Last Maintenance").truthy = false →
       (getCell row "lastMaintenance").truthy = false →
      (importRow today row).lastMaintenance = .str today)
    ∧ ((getCell row "Next Maintenance").truthy = true →
      (importRow today row).nextMaintenance = getCell row "Next Maintenance")
    ∧ ((getCell row "Next Maintenance").truthy = false →
       (getCell row "nextMaintenance").truthy = true →
      (importRow today row).nextMaintenance = getCell row "nextMaintenance")
    ∧ ((getCell row "Next Maintenance").truthy = false →
       (getCell row "nextMaintenance").truthy = false →
      (importRow today row).nextMaintenance = .str today)
    ∧ ((getCell row "Fiber Count").truthy = true →
      (importRow today row).fiberCount = jsParseIntOrZero (getCell row "Fiber Count"))
    ∧ ((getCell row "Fiber Count").truthy = false →
      (importRow today row).fiberCount = jsParseIntOrZero (getCell row "fiberCount"))
    ∧ ((getCell row "Fiber Count").truthy = false →
       (getCell row "fiberCount").truthy = false →
      (importRow today row).fiberCount = 0)
    ∧ ((getCell row "Trouble Tickets").truthy = true →
      (importRow today row).troubleTickets
        = jsParseIntOrZero (getCell row "Trouble Tickets"))
    ∧ ((getCell row "Trouble Tickets").truthy = false →
      (importRow today row).troubleTickets
        = jsParseIntOrZero (getCell row "troubleTickets"))
    ∧ ((getCell row "Trouble Tickets").truthy = false →
       (getCell row "troubleTickets").truthy = false →
      (importRow today row).troubleTickets = 0)
    ∧ ((getCell row "Handhole Count").truthy = true →
      (importRow today row).handhole = jsParseIntOrZero (getCell row "Handhole Count"))
    ∧ ((getCell row "Handhole Count").truthy = false →
      (importRow today row).handhole = jsParseIntOrZero (getCell row "handhole"))
    ∧ ((getCell row "Handhole Count").truthy = false →
       (getCell row "handhole").truthy = false →
      (importRow today row).handhole = 0)
    ∧ ((getCell row "ODC Count").truthy = true →
      (importRow today row).odc = jsParseIntOrZero (getCell row "ODC Count"))
    ∧ ((getCell row "ODC Count").truthy = false →
      (importRow today row).odc = jsParseIntOrZero (getCell row "odc"))
    ∧ ((getCell row "ODC Count").truthy = false → (getCell row "odc").truthy = false →
      (importRow today row).odc = 0)
    ∧ ((getCell row "Pole Count").truthy = true →
      (importRow today row).pole = jsParseIntOrZero (getCell row "Pole Count"))
    ∧ ((getCell row "Pole Count").truthy = false →
      (importRow today row).pole = jsParseIntOrZero (getCell row "pole"))
    ∧ ((getCell row "Pole Count").truthy = false → (getCell row "pole").truthy = false →
      (importRow today row).pole = 0)
    ∧ ((getCell row "JC Count").truthy = true →
      (importRow today row).jc = jsParseIntOrZero (getCell row "JC Count"))
    ∧ ((getCell row "JC Count").truthy = false →
      (importRow today row).jc = jsParseIntOrZero (getCell row "jc"))
    ∧ ((getCell row "JC Count").truthy = false → (getCell row "jc").truthy = false →
      (importRow today row).jc = 0)
    ∧ (importRow today row).links = []
    ∧ importRoutesFromCSVRows today
        [[("Route Name", .str "Segment A"), ("Status", .str "operational"),
          ("Start Location", .str "Node1"), ("End Location", .str "Node2")],
         [("Route Name", .str ""), ("Status", .str "critical"),
          ("Start Location", .str "X"), ("End Location", .str "Y")]]
      = [{ name := .str "Segment A", status := .str "operational", fiberCount := 0,
           locationStart := .str "Node1", locationEnd := .str "Node2",
           lastMaintenance := .str today, nextMaintenance := .str today,
           troubleTickets := 0, handhole := 0, odc := 0, pole := 0, jc := 0,
           links := [] }] := by
  refine ⟨fun h => jsOrCell_pos _ h, fun h => jsOrCell_neg _ h,
    fun h => jsOrCell_chain_pos _ _ _ h, fun h1 h2 => jsOrCell_chain_mid _ _ _ h1 h2,
    fun h1 h2 => jsOrCell_chain_def _ _ _ h1 h2,
    fun h => jsOrCell_chain_pos _ _ _ h, fun h1 h2 => jsOrCell_chain_mid _ _ _ h1 h2,
    fun h1 h2 => jsOrCell_chain_def _ _ _ h1 h2,
    fun h => jsOrCell_chain_pos _ _ _ h, fun h1 h2 => jsOrCell_chain_mid _ _ _ h1 h2,
    fun h1 h2 => jsOrCell_chain_def _ _ _ h1 h2,
    fun h => jsOrCell_chain_pos _ _ _ h, fun h1 h2 => jsOrCell_chain_mid _ _ _ h1 h2,
    fun h1 h2 => jsOrCell_chain_def _ _ _ h1 h2,
    fun h => jsOrCell_chain_pos _ _ _ h, fun h1 h2 => jsOrCell_chain_mid _ _ _ h1 h2,
    fun h1 h2 => jsOrCell_chain_def _ _ _ h1 h2,
    fun h => parse_chain_pos _ _ h, fun h => parse_chain_mid _ _ h,
    fun h1 h2 => parse_chain_def _ _ h1 h2,
    fun h => parse_chain_pos _ _ h, fun h => parse_chain_mid _ _ h,
    fun h1 h2 => parse_chain_def _ _ h1 h2,
    fun h => parse_chain_pos _ _ h, fun h => parse_chain_mid _ _ h,
    fun h1 h2 => parse_chain_def _ _ h1 h2,
    fun h => parse_chain_pos _ _ h, fun h => parse_chain_mid _ _ h,
    fun h1 h2 => parse_chain_def _ _ h1 h2,
    fun h => parse_chain_pos _ _ h, fun h => parse_chain_mid _ _ h,
    fun h1 h2 => parse_chain_def _ _ h1 h2,
    fun h => parse_chain_pos _ _ h, fun h => parse_chain_mid _ _ h,
    fun h1 h2 => parse_chain_def _ _ h1 h2,
    rfl, rfl⟩

theorem import_field_resolution_witness :
    (importRow "2026-02-03"
        [("Route Name", CellValue.str "Segment A"), ("Status", CellValue.str "operational"),
         ("Start Location", CellValue.str "Node1"), ("End Location", CellValue.str "Node2")]).status
      = getCell
          [("Route Name", CellValue.str "Segment A"), ("Status", CellValue.str "operational"),
           ("Start Location", CellValue.str "Node1"), ("End Location", CellValue.str "Node2")]
          "Status" :=
  (import_field_resolution "2026-02-03"
      [("Route Name", CellValue.str "Segment A"), ("Status", CellValue.str "operational"),
       ("Start Location", CellValue.str "Node1"), ("End Location", CellValue.str "Node2")]).2.2.1
    (by decide)

/-- The per-record round-trip relation of the route export/import pipeline:
the imported record carries the original name, status, fiber count and the
two location labels, and its links collection is empty. -/
def RouteRoundTrip (rec : ImportedRoute) (r : Route) : Prop :=
  rec.name = .str r.name ∧ rec.status = .str r.status
    ∧ rec.fiberCount = (r.fiberCount : Int)
    ∧ rec.locationStart = .str r.locationStart
    ∧ rec.locationEnd = .str r.locationEnd
    ∧ rec.links = []

theorem jsOrCell_str_blank_default (s : String) :
    jsOrCell (jsOrCell (.str s) .absent) (.str "") = .str s := by
  by_cases hs : s = ""
  · rw [hs]
    rfl
  · rw [jsOrCell_pos _ (truthy_str_of_ne hs), jsOrCell_pos _ (truthy_str_of_ne hs)]

theorem importRow_csv_export (today : String) (r : Route) (h1 : r.name ≠ "")
    (h2 : r.status ≠ "") :
    RouteRoundTrip (importRow today (csvRow (routeExportRow r))) r := by
  refine ⟨?_, ?_, ?_, ?_, ?_, rfl⟩
  · show jsOrCell (.str r.name) .absent = .str r.name
    exact jsOrCell_pos _ (truthy_str_of_ne h1)
  · show jsOrCell (jsOrCell (.str r.status) .absent) (.str "operational") = .str r.status
    rw [jsOrCell_pos _ (truthy_str_of_ne h2), jsOrCell_pos _ (truthy_str_of_ne h2)]
  · show jsParseIntOrZero
        (jsOrCell (.str (intToDecimal (r.fiberCount : Int))) .absent) = (r.fiberCount : Int)
    rw [intToDecimal_natCast,
      jsOrCell_pos _ (truthy_str_of_ne (natToDecimal_ne_empty _))]
    show (jsParseIntCell (.str (natToDecimal r.fiberCount))).getD 0 = (r.fiberCount : Int)
    rw [jsParseIntCell_natToDecimal]
    rfl
  · show jsOrCell (jsOrCell (.str r.locationStart) .absent) (.str "") = .str r.locationStart
    exact jsOrCell_str_blank_default _
  · show jsOrCell (jsOrCell (.str r.locationEnd) .absent) (.str "") = .str r.locationEnd
    exact jsOrCell_str_blank_default _

theorem importRow_xlsx_export (today : String) (r : Route) (h1 : r.name ≠ "")
    (h2 : r.status ≠ "") :
    RouteRoundTrip (importRow today (routeExportRow r)) r := by
  refine ⟨?_, ?_, ?_, ?_, ?_, rfl⟩
  · show jsOrCell (.str r.name) .absent = .str r.name
    exact jsOrCell_pos _ (truthy_str_of_ne h1)
  · show jsOrCell (jsOrCell (.str r.status) .absent) (.str "operational") = .str r.status
    rw [jsOrCell_pos _ (truthy_str_of_ne h2), jsOrCell_pos _ (truthy_str_of_ne h2)]
  · show jsParseIntOrZero
        (jsOrCell (.num (r.fiberCount : Int)) .absent) = (r.fiberCount : Int)
    by_cases hz : r.fiberCount = 0
    · simp [hz, jsOrCell, CellValue.truthy, jsParseIntOrZero, jsParseIntCell]
    · have hnz : (r.fiberCount : Int) ≠ 0 := Int.natCast_ne_zero.mpr hz
      rw [jsOrCell_pos _ (by simp [CellValue.truthy, bne_iff_ne, hnz])]
      rfl
  · show jsOrCell (jsOrCell (.str r.locationStart) .absent) (.str "") = .str r.locationStart
    exact jsOrCell_str_blank_default _
  · show jsOrCell (jsOrCell (.str r.locationEnd) .absent) (.str "") = .str r.locationEnd
    exact jsOrCell_str_blank_default _

theorem roundtrip_csv_list (today : String) : ∀ routes : List Route,
    (∀ r ∈ routes, r.name ≠ "" ∧ r.status ≠ "") →
    List.Forall₂ RouteRoundTrip
      (importRoutesFromCSVRows today ((routes.map routeExportRow).map csvRow)) routes := by
  intro routes
  induction routes with
  | nil =>
    intro _
    simp only [List.map_nil, importRoutesFromCSVRows, List.filter_nil]
    exact List.Forall₂.nil
  | cons r rs ih =>
    intro h
    obtain ⟨h1, h2⟩ := h r (List.mem_cons_self _ _)
    have hrt := importRow_csv_export today r h1 h2
    have hname : (importRow today (csvRow (routeExportRow r))).name.truthy = true := by
      rw [hrt.1]
      exact truthy_str_of_ne h1
    simp only [List.map_cons, importRoutesFromCSVRows] at *
    rw [List.filter_cons_of_pos (p := fun rec : ImportedRoute => rec.name.truthy) hname]
    exact List.Forall₂.cons hrt (ih fun x hx => h x (List.mem_cons_of_mem _ hx))

theorem roundtrip_xlsx_list (today : String) : ∀ routes : List Route,
    (∀ r ∈ routes, r.name ≠ "" ∧ r.status ≠ "") →
    List.Forall₂ RouteRoundTrip
      (importRoutesFromXLSXRows today (routes.map routeExportRow)) routes := by
  intro routes
  induction routes with
  | nil =>
    intro _
    exact List.Forall₂.nil
  | cons r rs ih =>
    intro h
    obtain ⟨h1, h2⟩ := h r (List.mem_cons_self _ _)
    exact List.Forall₂.cons (importRow_xlsx_export today r h1 h2)
      (ih fun x hx => h x (List.mem_cons_of_mem _ hx))

/-- C1 counterexample: exporting a route whose name is the empty string and
re-importing the delimited file yields the empty list (the blank-named row is
dropped), so the result does not match the original non-empty collection
field for field. -/
theorem csv_roundtrip_drops_empty_name_route :
    importRoutesFromCSVRows "2026-01-01" (([emptyNameRoute].map routeExportRow).map csvRow)
      = []
    ∧ [emptyNameRoute] ≠ ([] : List Route) := by
  refine ⟨rfl, by simp⟩

/-- C1 (amended): for every non-empty collection of routes whose names and
statuses are non-empty strings, exporting (workbook or delimited-text) and
re-importing yields, record for record, the original name, status, fiber
count and start/end locations, with an empty links collection. Routes with
an empty name are dropped by the delimited-text importer and come back with
an absent name from the workbook importer, so they do not round-trip; an
empty status comes back as operational. -/
theorem routes_export_import_roundtrip (today : String) (routes : List Route)
    (hne : routes ≠ [])
    (h : ∀ r ∈ routes, r.name ≠ "" ∧ r.status ≠ "") :
    List.Forall₂ RouteRoundTrip
      (importRoutesFromCSVRows today ((routes.map routeExportRow).map csvRow)) routes
    ∧ List.Forall₂ RouteRoundTrip
      (importRoutesFromXLSXRows today (routes.map routeExportRow)) routes :=
  ⟨roundtrip_csv_list today routes h, roundtrip_xlsx_list today routes h⟩

theorem routes_export_import_roundtrip_witness :
    List.Forall₂ RouteRoundTrip
      (importRoutesFromCSVRows "2026-01-01"
        (([sampleRoute].map routeExportRow).map csvRow)) [sampleRoute]
    ∧ List.Forall₂ RouteRoundTrip
      (importRoutesFromXLSXRows "2026-01-01" ([sampleRoute].map routeExportRow))
      [sampleRoute] :=
  routes_export_import_roundtrip "2026-01-01" [sampleRoute] (by simp) (by decide)
